import Mathlib

/-!
Shallow embedding of the ECR auto-onboarding reconciliation engine
(`src/lambda/ecr_auto_onboard_production.py`, with the near-duplicate
manual variant in `manual/ecr_auto_onboard_manual.py`).

External collaborators (HTTP transport, the Python `datetime` library)
are reified: every fallible call is a value of `Except String _` supplied
through an environment record, and Python `datetime` objects are modelled
by `PyDatetime` below.  Naive (offset-free) Python datetimes form a linear
timeline that is order- and translation-isomorphic to the integers, so a
naive datetime is embedded as its position in seconds on that timeline;
an offset-aware datetime additionally carries its explicit UTC offset.
Python raises `TypeError` when an offset-aware datetime is compared with
a naive one; `pyLt` returns `Except.error` there, mirroring the exception.
-/

namespace Ecr

/-- A Python `datetime` value: a position on the naive wall-clock timeline
(in seconds, via the proleptic Gregorian day count) plus the explicit UTC
offset in seconds when the value is offset-aware (`tzinfo` present). -/
structure PyDatetime where
  seconds : Int
  offset : Option Int
  deriving DecidableEq, Repr

/-- Python comparison `a < b` on datetimes: comparing an offset-aware value
with a naive one raises `TypeError`; two aware values compare after
normalising by their offsets; two naive values compare directly. -/
def pyLt (a b : PyDatetime) : Except String Bool :=
  match a.offset, b.offset with
  | none, none => Except.ok (decide (a.seconds < b.seconds))
  | some oa, some ob => Except.ok (decide (a.seconds - oa < b.seconds - ob))
  | _, _ => Except.error "cannot compare offset-naive and offset-aware datetimes"

/-- Gregorian leap-year test. -/
def isLeapYear (y : Int) : Bool :=
  y % 4 = 0 && (y % 100 ≠ 0 || y % 400 = 0)

/-- Number of days in month `m` of year `y`. -/
def daysInMonth (y : Int) (m : Nat) : Nat :=
  if m = 2 then (if isLeapYear y then 29 else 28)
  else if m = 4 || m = 6 || m = 9 || m = 11 then 30
  else 31

/-- Days from 1970-01-01 to year `y`, month `m`, day `d` in the proleptic
Gregorian calendar (civil-from-days algorithm; all intermediate divisions
act on non-negative operands, so truncated division equals floor). -/
def daysFromCivil (y : Int) (m d : Nat) : Int :=
  let yAdj : Int := if m ≤ 2 then y - 1 else y
  let era : Int := (if 0 ≤ yAdj then yAdj else yAdj - 399) / 400
  let yoe : Int := yAdj - era * 400
  let mp : Int := if m > 2 then (m : Int) - 3 else (m : Int) + 9
  let doy : Int := (153 * mp + 2) / 5 + (d : Int) - 1
  let doe : Int := yoe * 365 + yoe / 4 - yoe / 100 + doy
  era * 146097 + doe - 719468

/-- The numeric value of a decimal digit character, if it is one. -/
def digitVal (c : Char) : Option Nat :=
  if '0' ≤ c ∧ c ≤ '9' then some (c.toNat - 48) else none

/-- Parse exactly `k` decimal digits, most significant first. -/
def parseDigits : Nat → Nat → List Char → Option (Nat × List Char)
  | 0, acc, cs => some (acc, cs)
  | k + 1, acc, c :: cs =>
    match digitVal c with
    | some v => parseDigits k (acc * 10 + v) cs
    | none => none
  | _ + 1, _, [] => none

/-- Consume one expected character. -/
def expectChar (c : Char) : List Char → Option (List Char)
  | c' :: cs => if c' = c then some cs else none
  | [] => none

/-- Parse `HH:MM` with bounds `hi` on the hour; returns seconds. -/
def parseHourMinute (hi : Nat) (cs : List Char) : Option (Nat × List Char) := do
  let (h, cs) ← parseDigits 2 0 cs
  let cs ← expectChar ':' cs
  let (mi, cs) ← parseDigits 2 0 cs
  if h < hi && mi < 60 then some (h * 3600 + mi * 60, cs) else none

/-- `datetime.fromisoformat` on the subset of ISO-8601 the engine feeds it:
`YYYY-MM-DD`, optionally followed by a `T` or space separator and
`HH:MM:SS`, optionally followed by a `+HH:MM` or `-HH:MM` UTC offset.
Returns `none` where Python raises `ValueError`.  A string carrying an
explicit offset parses to an offset-aware value. -/
def fromisoformat (s : String) : Option PyDatetime := do
  let cs := s.toList
  let (y, cs) ← parseDigits 4 0 cs
  let cs ← expectChar '-' cs
  let (mo, cs) ← parseDigits 2 0 cs
  let cs ← expectChar '-' cs
  let (d, cs) ← parseDigits 2 0 cs
  if 1 ≤ mo ∧ mo ≤ 12 ∧ 1 ≤ d ∧ d ≤ daysInMonth (y : Int) mo then
    let dateSecs : Int := daysFromCivil (y : Int) mo d * 86400
    match cs with
    | [] => some { seconds := dateSecs, offset := none }
    | sep :: cs =>
      if sep = 'T' ∨ sep = ' ' then do
        let (h, cs) ← parseDigits 2 0 cs
        let cs ← expectChar ':' cs
        let (mi, cs) ← parseDigits 2 0 cs
        let cs ← expectChar ':' cs
        let (sec, cs) ← parseDigits 2 0 cs
        if h < 24 ∧ mi < 60 ∧ sec < 60 then
          let t : Int := dateSecs + (h : Int) * 3600 + (mi : Int) * 60 + (sec : Int)
          match cs with
          | [] => some { seconds := t, offset := none }
          | sign :: cs =>
            if sign = '+' ∨ sign = '-' then do
              let (off, cs) ← parseHourMinute 24 cs
              match cs with
              | [] =>
                some { seconds := t
                       offset := some (if sign = '+' then (off : Int) else -(off : Int)) }
              | _ => none
            else none
        else none
      else none
  else none

/-- Python `s.replace('Z', '+00:00')`: every capital `Z` is replaced. -/
def pyReplaceZ (s : String) : String :=
  String.mk (s.toList.flatMap fun c =>
    if c = 'Z' then ['+', '0', '0', ':', '0', '0'] else [c])

/-- Python truthiness of an optional string (`None` and `""` are falsy). -/
def truthy : Option String → Bool
  | some s => s ≠ ""
  | none => false

/-- Python `x or default` for an optional string (`None`/`""` fall back). -/
def pyOr (x : Option String) (default : String) : String :=
  match x with
  | some s => if s = "" then default else s
  | none => default

/-- First-match lookup in an association list (Python dict read). -/
def lookupA {β : Type} : List (String × β) → String → Option β
  | [], _ => none
  | (k, v) :: rest, key => if k = key then some v else lookupA rest key

/-- Python dict assignment `m[k] = v`: replace the binding if the key is
present, otherwise append it (insertion order is preserved). -/
def setA {β : Type} : List (String × β) → String → β → List (String × β)
  | [], k, v => [(k, v)]
  | (k', v') :: rest, k, v =>
    if k' = k then (k, v) :: rest else (k', v') :: setA rest k v

/-- The per-account credential record built by
`get_cspm_account_credentials`. -/
structure AccountCred where
  iam_role_arn : String
  external_id : String
  account_name : String
  deriving DecidableEq, Repr

/-- `account_id in credentials_map` for a possibly-missing account id;
Python's `None in dict` is `False` for a dict with string keys. -/
def hasAccount (m : List (String × AccountCred)) : Option String → Bool
  | some a => (lookupA m a).isSome
  | none => false

/-- An `ExistingRegistration` record as built by `get_detailed_registrations`
(`url` was checked truthy there; `account_id` is parsed back out of the URL
and may be missing; `state` defaults to `"unknown"`). -/
structure Registration where
  id : Option String
  url : String
  account_id : Option String
  state : String
  last_activity : Option String
  created_at : Option String
  updated_at : Option String
  deriving DecidableEq, Repr

/-- The bucket a registration falls into during cleanup analysis. -/
inductive Classification where
  | ignore
  | keep
  | delete
  deriving DecidableEq, Repr

/-- `cutoff_date = datetime.now() - timedelta(days=CLEANUP_OFFLINE_DAYS)`;
`datetime.now()` is naive, so the cutoff is naive. -/
def cutoffDate (now : Int) (days : Int) : PyDatetime :=
  { seconds := now - days * 86400, offset := none }

/-- The per-record body of the loop in `identify_registrations_for_cleanup`:
rule 1 ignores accounts outside the CSPM credential map; offline
registrations with a truthy `last_activity` are compared against the
cutoff inside a `try` block whose `except` keeps the record (both a parse
failure and the `TypeError` from comparing an offset-aware timestamp with
the naive cutoff land there); everything else is kept. -/
def classifyRegistration (cspm_accounts : List (String × AccountCred))
    (cutoff_date : PyDatetime) (registration : Registration) : Classification :=
  if !(hasAccount cspm_accounts registration.account_id) then
    Classification.ignore
  else if registration.state = "offline" && truthy registration.last_activity then
    match registration.last_activity with
    | none => Classification.keep
    | some last_activity =>
      match fromisoformat (pyReplaceZ last_activity) with
      | none => Classification.keep
      | some activity_date =>
        match pyLt activity_date cutoff_date with
        | Except.error _ => Classification.keep
        | Except.ok true => Classification.delete
        | Except.ok false => Classification.keep
  else
    Classification.keep

/-- `identify_registrations_for_cleanup`: returns the cleanup candidates,
i.e. exactly the registrations the loop classifies DELETE, in order. -/
def identify_registrations_for_cleanup (detailed_registrations : List Registration)
    (cspm_accounts : List (String × AccountCred)) (now : Int) (days : Int) :
    List Registration :=
  let cutoff_date := cutoffDate now days
  detailed_registrations.filter fun registration =>
    classifyRegistration cspm_accounts cutoff_date registration = Classification.delete

/-- `determine_cleanup_reason`: builds the human-readable reason string.
The offline-duration branch is reached only when the activity date
compares below the cutoff without raising; `days_offline` floors the
naive difference to whole days, as `timedelta.days` does. -/
def determine_cleanup_reason (registration : Registration)
    (cspm_accounts : List (String × AccountCred)) (now : Int) (days : Int) : String :=
  let last_activity_display := registration.last_activity.getD "None"
  let fallback := "Registry state: " ++ registration.state ++
    ", last activity: " ++ last_activity_display
  if cspm_accounts ≠ [] ∧ hasAccount cspm_accounts registration.account_id = false then
    "Account not in CSPM (manual registration preserved)"
  else if truthy registration.last_activity ∧ last_activity_display ≠ "unknown" then
    match fromisoformat (pyReplaceZ last_activity_display) with
    | none => fallback
    | some activity_date =>
      match pyLt activity_date (cutoffDate now days) with
      | Except.error _ => fallback
      | Except.ok false => fallback
      | Except.ok true =>
        let days_offline := (now - activity_date.seconds) / 86400
        "Registry offline for " ++ toString days_offline ++ " days (>" ++
          toString days ++ " day threshold)"
  else fallback

/-- A raw Asset Explorer resource record consumed by discovery. -/
structure RawResource where
  account_id : Option String
  region : Option String
  resource_id : Option String
  deriving DecidableEq, Repr

/-- A discovered registry group, keyed by `account_id + "_" + region`. -/
structure RegistryGroup where
  repositories : List (Option String)
  account_id : Option String
  region : Option String
  registry_url : Option String
  deriving DecidableEq, Repr

/-- One `registries_map[registry_key]` update: set the identifying fields
and append the repository name.  On a fresh key the `defaultdict` default
(`repositories = []`, other fields `None`) is updated, and the entry is
appended at the end (Python dicts preserve insertion order). -/
def addToRegistry (m : List (String × RegistryGroup)) (registry_key : String)
    (account_id region registry_url : String) (repository_name : Option String) :
    List (String × RegistryGroup) :=
  match m with
  | [] => [(registry_key,
      { repositories := [repository_name], account_id := some account_id,
        region := some region, registry_url := some registry_url })]
  | (k, g) :: rest =>
    if k = registry_key then
      (k, { g with account_id := some account_id, region := some region,
                   registry_url := some registry_url,
                   repositories := g.repositories ++ [repository_name] }) :: rest
    else
      (k, g) :: addToRegistry rest registry_key account_id region registry_url repository_name

/-- The body of the grouping loop in `discover_ecr_registries`: a resource
whose `account_id` or `region` is missing or empty is skipped. -/
def groupStep (m : List (String × RegistryGroup)) (resource : RawResource) :
    List (String × RegistryGroup) :=
  match resource.account_id, resource.region with
  | some account_id, some region =>
    if account_id ≠ "" ∧ region ≠ "" then
      let registry_key := account_id ++ "_" ++ region
      let registry_url :=
        "https://" ++ account_id ++ ".dkr.ecr." ++ region ++ ".amazonaws.com"
      addToRegistry m registry_key account_id region registry_url resource.resource_id
    else m
  | _, _ => m

/-- Group raw resources by `(account_id, region)` and return
`list(registries_map.values())`. -/
def groupResources (all_resources : List RawResource) : List RegistryGroup :=
  (all_resources.foldl groupStep []).map Prod.snd

/-- The outcomes of the external calls made by `discover_ecr_registries`:
the resource-id query and the per-batch detail fetch.  `Except.error`
stands for a raised transport or deserialisation exception. -/
structure DiscoveryEnv where
  queryResources : Except String (List String)
  detailBatch : List String → Except String (List RawResource)

/-- Batch splitter, structurally recursive on a fuel bound.  Each step of
`range(0, len(ids), batch_size)` consumes at least one element of a
non-empty list, so a fuel of `l.length` is always sufficient. -/
def chunksOfAux : Nat → List String → List (List String)
  | 0, _ => []
  | _, [] => []
  | fuel + 1, l@(_ :: _) => l.take 100 :: chunksOfAux fuel (l.drop 100)

/-- Split the resource ids into batches of `batch_size = 100`. -/
def chunksOf (l : List String) : List (List String) :=
  chunksOfAux l.length l

/-- The `try` body of `discover_ecr_registries`: query resource ids,
return `[]` when none are found, hydrate them in batches of 100, then
group.  Any raised exception surfaces as `Except.error`. -/
def discoverBody (env : DiscoveryEnv) : Except String (List RegistryGroup) := do
  let resource_ids ← env.queryResources
  if resource_ids.isEmpty then
    pure []
  else do
    let batch_results ← (chunksOf resource_ids).mapM env.detailBatch
    pure (groupResources batch_results.flatten)

/-- `discover_ecr_registries`: the whole body sits in a `try` whose
`except` logs the cause and returns the empty list. -/
def discover_ecr_registries (env : DiscoveryEnv) : List RegistryGroup :=
  match discoverBody env with
  | Except.ok registry_list => registry_list
  | Except.error _ => []

/-- One account record of the CSPM registration response
(`account_name` already defaulted to `"Unknown"`). -/
structure AccountData where
  account_id : Option String
  account_name : String
  iam_role_arn : Option String
  external_id : Option String
  deriving DecidableEq, Repr

/-- The outcome of the CSPM registration query made by
`get_cspm_account_credentials`. -/
structure CredentialEnv where
  accountsResp : Except String (List AccountData)

/-- The `try` body of `get_cspm_account_credentials`: accounts whose
`account_id`, `iam_role_arn` or `external_id` is missing or empty are
skipped (logged as a warning). -/
def credBody (env : CredentialEnv) : Except String (List (String × AccountCred)) := do
  let resources ← env.accountsResp
  pure <| resources.foldl (fun credentials_map account_data =>
    if truthy account_data.account_id && truthy account_data.iam_role_arn &&
        truthy account_data.external_id then
      match account_data.account_id, account_data.iam_role_arn,
            account_data.external_id with
      | some account_id, some iam_role_arn, some external_id =>
        setA credentials_map account_id
          { iam_role_arn := iam_role_arn, external_id := external_id,
            account_name := account_data.account_name }
      | _, _, _ => credentials_map
    else credentials_map) []

/-- `get_cspm_account_credentials`: exceptions yield the empty mapping. -/
def get_cspm_account_credentials (env : CredentialEnv) :
    List (String × AccountCred) :=
  match credBody env with
  | Except.ok credentials_map => credentials_map
  | Except.error _ => []

/-- A registry group merged with its matched credential
(`{**registry, 'iam_role_arn': ..., 'external_id': ..., 'account_name': ...}`). -/
structure EnhancedRegistry where
  repositories : List (Option String)
  account_id : Option String
  region : Option String
  registry_url : Option String
  iam_role_arn : String
  external_id : String
  account_name : String
  deriving DecidableEq, Repr

/-- `enhance_registries_with_credentials`: groups whose account has no
resolved credential are dropped (collected into `missing_credentials`
and logged; only the enhanced list is returned). -/
def enhance_registries_with_credentials (registries : List RegistryGroup)
    (credentials_map : List (String × AccountCred)) : List EnhancedRegistry :=
  registries.filterMap fun registry =>
    match registry.account_id with
    | some account_id =>
      match lookupA credentials_map account_id with
      | some creds =>
        some { repositories := registry.repositories
               account_id := registry.account_id
               region := registry.region
               registry_url := registry.registry_url
               iam_role_arn := creds.iam_role_arn
               external_id := creds.external_id
               account_name := creds.account_name }
      | none => none
    | none => none

/-- One entry of the `errors` array of an error response body. -/
structure ErrObj where
  message : Option String
  deriving DecidableEq, Repr

/-- The parsed JSON body of a registry-management response:
`errors` from `.get('errors', [])`, `resourceId` from
`.get('resources', {}).get('id', ...)`. -/
structure RespBody where
  errors : List ErrObj
  resourceId : Option String
  deriving DecidableEq, Repr

/-- An HTTP response: status code plus the outcome of `response.json()`
(`Except.error` when the body does not deserialise). -/
structure HttpResp where
  status : Nat
  body : Except String RespBody

/-- Externally observable calls issued by the apply layer and the
cleanup stage; register/deregister are the mutating ones. -/
inductive Effect where
  | httpPost (url : Option String)
  | httpDelete (ids : List (Option String))
  | fetchDetailed
  deriving DecidableEq, Repr

/-- Everything the workflow's external collaborators return, plus the
configuration flags read from the environment. -/
structure WorkflowEnv where
  authOk : Bool
  discovered : List RegistryGroup
  credsMap : List (String × AccountCred)
  existingUrls : List String
  detailed : List Registration
  registerResp : EnhancedRegistry → Except String HttpResp
  deleteResp : Registration → Except String HttpResp
  dryRun : Bool
  cleanupEnabled : Bool
  now : Int
  offlineDays : Int

/-- `errors[0].get('message', 'Unknown error') if errors else "HTTP <code>"`. -/
def firstErrorMessage (b : RespBody) (status : Nat) : String :=
  match b.errors with
  | [] => "HTTP " ++ toString status
  | e0 :: _ => e0.message.getD "Unknown error"

/-- The outcome dict returned by `register_ecr_registry`. -/
structure RegisterOutcome where
  success : Bool
  registry : EnhancedRegistry
  registry_id : Option String
  error : Option String
  deriving DecidableEq, Repr

/-- The outcome dict returned by `delete_ecr_registry`. -/
structure DeleteOutcome where
  success : Bool
  registry : Registration
  cleanup_reason : String
  error : Option String
  deriving DecidableEq, Repr

/-- `register_ecr_registry`: dry-run short-circuits before the POST with a
synthetic success carrying the placeholder id `dry-run-id`.  Live mode
issues the POST; a raised transport exception and a body that fails to
deserialise are both caught by the outer `except` and become failure
outcomes; success requires `status_code in [200, 201]`. -/
def register_ecr_registry (env : WorkflowEnv) (registry : EnhancedRegistry) :
    RegisterOutcome × List Effect :=
  if env.dryRun then
    ({ success := true, registry := registry,
       registry_id := some "dry-run-id", error := none }, [])
  else
    let effects := [Effect.httpPost registry.registry_url]
    match env.registerResp registry with
    | Except.error e =>
      ({ success := false, registry := registry,
         registry_id := none, error := some e }, effects)
    | Except.ok response =>
      if [200, 201].contains response.status then
        match response.body with
        | Except.ok result =>
          ({ success := true, registry := registry,
             registry_id := some (result.resourceId.getD "unknown"),
             error := none }, effects)
        | Except.error e =>
          ({ success := false, registry := registry,
             registry_id := none, error := some e }, effects)
      else
        match response.body with
        | Except.ok error_response =>
          ({ success := false, registry := registry, registry_id := none,
             error := some (firstErrorMessage error_response response.status) },
           effects)
        | Except.error e =>
          ({ success := false, registry := registry,
             registry_id := none, error := some e }, effects)

/-- `delete_ecr_registry`: dry-run short-circuits before the DELETE with a
synthetic success whose reason is `cleanup_reason or 'Dry run mode'`.
Live mode issues the DELETE; success requires `status_code in [200, 204]`;
the failure message comes from the body's `errors` when it deserialises,
else it is the generic `HTTP <code>` string; a raised transport
exception becomes a failure outcome. -/
def delete_ecr_registry (env : WorkflowEnv) (registration : Registration)
    (cleanup_reason : Option String) : DeleteOutcome × List Effect :=
  if env.dryRun then
    ({ success := true, registry := registration,
       cleanup_reason := pyOr cleanup_reason "Dry run mode", error := none }, [])
  else
    let effects := [Effect.httpDelete [registration.id]]
    match env.deleteResp registration with
    | Except.error e =>
      ({ success := false, registry := registration,
         cleanup_reason := pyOr cleanup_reason "Manual cleanup",
         error := some e }, effects)
    | Except.ok response =>
      if [200, 204].contains response.status then
        ({ success := true, registry := registration,
           cleanup_reason := pyOr cleanup_reason "Manual cleanup",
           error := none }, effects)
      else
        let error_message :=
          match response.body with
          | Except.ok error_response => firstErrorMessage error_response response.status
          | Except.error _ => "HTTP " ++ toString response.status
        ({ success := false, registry := registration,
           cleanup_reason := pyOr cleanup_reason "Manual cleanup",
           error := some error_message }, effects)

/-- Whether a registry's URL is already registered
(`reg['registry_url'] in existing_registrations`; a missing URL — Python
`None` — is never a member of the string set). -/
def urlRegistered (existing_registrations : List String)
    (reg : EnhancedRegistry) : Bool :=
  match reg.registry_url with
  | some url => existing_registrations.contains url
  | none => false

/-- The registration diff:
`[reg for reg in enhanced_registries if reg['registry_url'] not in existing_registrations]`.
Membership is exact string equality; no normalisation is performed. -/
def to_register (enhanced_registries : List EnhancedRegistry)
    (existing_registrations : List String) : List EnhancedRegistry :=
  enhanced_registries.filter fun reg => !(urlRegistered existing_registrations reg)

/-- The register loop of step 7: every entity is processed and its outcome
collected into the success or failure list; no outcome aborts the loop. -/
def registerLoop (env : WorkflowEnv) :
    List EnhancedRegistry → List RegisterOutcome × List RegisterOutcome × List Effect
  | [] => ([], [], [])
  | registry :: rest =>
    let step := register_ecr_registry env registry
    let acc := registerLoop env rest
    if step.1.success then (step.1 :: acc.1, acc.2.1, step.2 ++ acc.2.2)
    else (acc.1, step.1 :: acc.2.1, step.2 ++ acc.2.2)

/-- The delete loop of step 8: each candidate gets a cleanup reason from
`determine_cleanup_reason` and is deleted independently. -/
def deleteLoop (env : WorkflowEnv) (credentials_map : List (String × AccountCred)) :
    List Registration → List DeleteOutcome × List DeleteOutcome × List Effect
  | [] => ([], [], [])
  | registration :: rest =>
    let cleanup_reason :=
      determine_cleanup_reason registration credentials_map env.now env.offlineDays
    let step := delete_ecr_registry env registration (some cleanup_reason)
    let acc := deleteLoop env credentials_map rest
    if step.1.success then (step.1 :: acc.1, acc.2.1, step.2 ++ acc.2.2)
    else (acc.1, step.1 :: acc.2.1, step.2 ++ acc.2.2)

/-- The result accumulator of one invocation (timing and session fields of
the Python dict are omitted; they carry no decision logic). -/
structure RunResult where
  discovered_registries : Nat
  enhanced_registries : Nat
  existing_registrations : Nat
  new_registrations : Nat
  failed_registrations : Nat
  cleanup_enabled : Bool
  cleanup_candidates : Nat
  deleted_registrations : Nat
  failed_deletions : Nat
  dry_run_mode : Bool
  errors : List String
  newly_registered : List RegisterOutcome
  deleted_registries : List DeleteOutcome
  failed_registrations_list : List RegisterOutcome
  failed_deletions_list : List DeleteOutcome
  deriving DecidableEq, Repr

/-- The result dict as initialised at the start of the workflow. -/
def initResult (env : WorkflowEnv) : RunResult :=
  { discovered_registries := 0, enhanced_registries := 0,
    existing_registrations := 0, new_registrations := 0,
    failed_registrations := 0, cleanup_enabled := env.cleanupEnabled,
    cleanup_candidates := 0, deleted_registrations := 0, failed_deletions := 0,
    dry_run_mode := env.dryRun, errors := [], newly_registered := [],
    deleted_registries := [], failed_registrations_list := [],
    failed_deletions_list := [] }

/-- `run_onboarding_workflow` of the production variant, returning the
result dict together with the trace of external calls it issued.  Mirrors
the source's early returns: authentication failure, zero discovered
registries, zero enhanced registries, and an empty registration diff each
return immediately — in particular the empty-diff return happens before
the cleanup stage. -/
def run_onboarding_workflow (env : WorkflowEnv) : RunResult × List Effect :=
  let result := initResult env
  if !env.authOk then
    ({ result with errors := ["Authentication failed"] }, [])
  else
    let registries := env.discovered
    let result := { result with discovered_registries := registries.length }
    if registries.isEmpty then (result, [])
    else
      let credentials_map := env.credsMap
      let enhanced_registries :=
        enhance_registries_with_credentials registries credentials_map
      let result := { result with enhanced_registries := enhanced_registries.length }
      if enhanced_registries.isEmpty then
        ({ result with
             errors := ["No registries could be enhanced with CSPM credentials"] }, [])
      else
        let existing_registrations := env.existingUrls
        let result :=
          { result with existing_registrations := existing_registrations.length }
        let toReg := to_register enhanced_registries existing_registrations
        if toReg.isEmpty then (result, [])
        else
          let rl := registerLoop env toReg
          let result :=
            { result with new_registrations := rl.1.length,
                          newly_registered := rl.1,
                          failed_registrations := rl.2.1.length,
                          failed_registrations_list := rl.2.1 }
          if env.cleanupEnabled then
            let detailed_registrations := env.detailed
            let trace := rl.2.2 ++ [Effect.fetchDetailed]
            if detailed_registrations.isEmpty then (result, trace)
            else
              let cleanup_candidates :=
                identify_registrations_for_cleanup detailed_registrations
                  credentials_map env.now env.offlineDays
              let result :=
                { result with cleanup_candidates := cleanup_candidates.length }
              let dl := deleteLoop env credentials_map cleanup_candidates
              ({ result with deleted_registrations := dl.1.length,
                             deleted_registries := dl.1,
                             failed_deletions := dl.2.1.length,
                             failed_deletions_list := dl.2.1 },
               trace ++ dl.2.2)
          else (result, rl.2.2)

/-! ## Sample data for concrete instantiations -/

/-- A registration whose account is absent from the credential map. -/
def c1Reg : Registration :=
  { id := some "reg-9", url := "https://999999999999.dkr.ecr.us-east-1.amazonaws.com",
    account_id := some "999999999999", state := "offline",
    last_activity := some "2019-01-01T00:00:00", created_at := none,
    updated_at := none }

/-- An offline registration whose `last_activity` ends in `Z`. -/
def c2Reg : Registration :=
  { id := some "reg-1", url := "https://123456789012.dkr.ecr.us-east-1.amazonaws.com",
    account_id := some "123456789012", state := "offline",
    last_activity := some "2020-01-01T00:00:00Z", created_at := none,
    updated_at := none }

/-- A credential map containing `c2Reg`'s account. -/
def c2Cspm : List (String × AccountCred) :=
  [("123456789012",
    { iam_role_arn := "arn:aws:iam::123456789012:role/CrowdStrikeCSPMReader",
      external_id := "external-id-1", account_name := "prod-account" })]

/-- A run instant of 2026-01-01, six years after `c2Reg`'s last activity. -/
def c2Now : Int := daysFromCivil 2026 1 1 * 86400

/-! ## Claims -/

/-- Claim C1: a registration whose `account_id` has no entry in the
credential map is classified IGNORE — processing stops at rule 1 — and it
never appears in the cleanup-candidate (DELETE) list returned by
`identify_registrations_for_cleanup`, regardless of its state or
last-activity timestamp. -/
theorem claim1_no_credential_is_ignored (detailed : List Registration)
    (cspm : List (String × AccountCred)) (now days : Int) (r : Registration)
    (_hmem : r ∈ detailed) (hacct : hasAccount cspm r.account_id = false) :
    classifyRegistration cspm (cutoffDate now days) r = Classification.ignore ∧
      r ∉ identify_registrations_for_cleanup detailed cspm now days := by
  have hclass : classifyRegistration cspm (cutoffDate now days) r =
      Classification.ignore := by
    simp [classifyRegistration, hacct]
  refine ⟨hclass, ?_⟩
  intro hin
  rw [identify_registrations_for_cleanup, List.mem_filter] at hin
  rw [hclass] at hin
  simp at hin

/-- Witness for C1 at a concrete registration and empty credential map. -/
theorem claim1_no_credential_is_ignored_witness :
    classifyRegistration [] (cutoffDate 0 7) c1Reg = Classification.ignore ∧
      c1Reg ∉ identify_registrations_for_cleanup [c1Reg] [] 0 7 :=
  claim1_no_credential_is_ignored [c1Reg] [] 0 7 c1Reg (by decide) (by decide)

/-- Claim C2 (code bug): the spec's rule — an offline registration in the
credential map whose `last_activity` is present and parseable and older
than the threshold is DELETEd — fails for timestamps carrying an explicit
UTC offset.  `2020-01-01T00:00:00Z` parses fine (to an offset-aware
value), lies six years before the cutoff, yet the record is classified
KEEP and the candidate list is empty, because comparing the offset-aware
activity date with the naive cutoff raises and the `except` keeps it. -/
theorem claim2_offline_threshold_code_bug :
    fromisoformat (pyReplaceZ "2020-01-01T00:00:00Z") =
        some { seconds := 1577836800, offset := some 0 } ∧
      c2Now - 1577836800 > 7 * 86400 ∧
      hasAccount c2Cspm c2Reg.account_id = true ∧
      c2Reg.state = "offline" ∧
      classifyRegistration c2Cspm (cutoffDate c2Now 7) c2Reg =
        Classification.keep ∧
      identify_registrations_for_cleanup [c2Reg] c2Cspm c2Now 7 = [] := by
  refine ⟨by decide, by decide, by decide, rfl, by decide, by decide⟩

/-- Claim C10: an offline registration in the credential map whose
`last_activity` parses to an offset-aware datetime (e.g. an ISO-8601
string ending in `Z`) is classified KEEP no matter how old it is: the
parsed value is offset-aware, the cutoff is naive, so `pyLt` raises and
the fail-safe branch keeps the record. -/
theorem claim10_aware_timestamp_always_kept
    (cspm : List (String × AccountCred)) (now days : Int) (r : Registration)
    (s : String) (t o : Int)
    (hacct : hasAccount cspm r.account_id = true)
    (hstate : r.state = "offline")
    (hla : r.last_activity = some s)
    (hparse : fromisoformat (pyReplaceZ s) = some { seconds := t, offset := some o }) :
    classifyRegistration cspm (cutoffDate now days) r = Classification.keep := by
  by_cases hs : s = ""
  · subst hs
    rw [show fromisoformat (pyReplaceZ "") = none from rfl] at hparse
    exact Option.noConfusion hparse
  · simp [classifyRegistration, hacct, hstate, hla, truthy, hs, hparse, pyLt,
      cutoffDate]

/-- Witness for C10: the concrete registration of the C2 scenario, kept
even though its activity lies six years in the past. -/
theorem claim10_aware_timestamp_always_kept_witness :
    classifyRegistration c2Cspm (cutoffDate c2Now 7) c2Reg = Classification.keep :=
  claim10_aware_timestamp_always_kept c2Cspm c2Now 7 c2Reg
    "2020-01-01T00:00:00Z" 1577836800 0 (by decide) rfl rfl (by decide)

/-- An enhanced registry used to instantiate the diff claim. -/
def c3Enh : EnhancedRegistry :=
  { repositories := [some "app"], account_id := some "111122223333",
    region := some "us-east-1",
    registry_url := some "https://111122223333.dkr.ecr.us-east-1.amazonaws.com",
    iam_role_arn := "arn:aws:iam::111122223333:role/CrowdStrikeCSPMReader",
    external_id := "external-id-3", account_name := "dev-account" }

/-- Claim C3: the registration diff is exactly the enriched registries
whose `registry_url` is not a member of the existing-registrations set,
membership being exact string equality; when every enriched URL is
already present the diff is empty. -/
theorem claim3_registration_diff (enhanced_registries : List EnhancedRegistry)
    (existing_registrations : List String) :
    (∀ r, r ∈ to_register enhanced_registries existing_registrations ↔
        r ∈ enhanced_registries ∧ urlRegistered existing_registrations r = false) ∧
      ((∀ r ∈ enhanced_registries, urlRegistered existing_registrations r = true) →
        to_register enhanced_registries existing_registrations = []) := by
  constructor
  · intro r
    simp [to_register, List.mem_filter]
  · intro h
    rw [to_register]
    rw [List.filter_eq_nil_iff]
    intro r hr
    simp [h r hr]

/-- Witness for C3: a registry already registered produces an empty diff;
an empty existing set makes the membership characterisation concrete. -/
theorem claim3_registration_diff_witness :
    to_register [c3Enh]
        ["https://111122223333.dkr.ecr.us-east-1.amazonaws.com"] = [] ∧
      (c3Enh ∈ to_register [c3Enh] [] ↔
        c3Enh ∈ [c3Enh] ∧ urlRegistered [] c3Enh = false) :=
  ⟨(claim3_registration_diff [c3Enh]
      ["https://111122223333.dkr.ecr.us-east-1.amazonaws.com"]).2 (by decide),
   (claim3_registration_diff [c3Enh] []).1 c3Enh⟩

/-- A discovery environment whose batched detail call raises. -/
def c8DiscEnv : DiscoveryEnv :=
  { queryResources := Except.ok ["resource-id-1"],
    detailBatch := fun _ => Except.error "transport error" }

/-- A credential environment whose lookup call raises. -/
def c8CredEnv : CredentialEnv :=
  { accountsResp := Except.error "deserialisation error" }

/-- Claim C8: any transport or deserialisation error inside discovery
makes `discover_ecr_registries` return the empty list instead of raising,
and under the same condition `get_cspm_account_credentials` returns the
empty mapping (both functions are total: the reified exception is
consumed at the component boundary). -/
theorem claim8_fail_soft (denv : DiscoveryEnv) (cenv : CredentialEnv)
    (e1 e2 : String)
    (h1 : discoverBody denv = Except.error e1)
    (h2 : credBody cenv = Except.error e2) :
    discover_ecr_registries denv = [] ∧
      get_cspm_account_credentials cenv = [] := by
  constructor
  · simp [discover_ecr_registries, h1]
  · simp [get_cspm_account_credentials, h2]

/-- Witness for C8: a mid-pipeline detail-fetch failure and a failed
credential lookup, both observed as empty results. -/
theorem claim8_fail_soft_witness :
    discover_ecr_registries c8DiscEnv = [] ∧
      get_cspm_account_credentials c8CredEnv = [] :=
  claim8_fail_soft c8DiscEnv c8CredEnv "transport error"
    "deserialisation error" rfl rfl

/-- Builds one of the three enhanced registries of the C5 scenario. -/
def c5Registry (name : String) : EnhancedRegistry :=
  { repositories := [some "svc"], account_id := some "555555555555",
    region := some "eu-west-1",
    registry_url := some "https://555555555555.dkr.ecr.eu-west-1.amazonaws.com",
    iam_role_arn := "arn:aws:iam::555555555555:role/CrowdStrikeCSPMReader",
    external_id := "external-id-5", account_name := name }

/-- An environment whose register call fails (simulated transport error)
exactly for the entity named `account-two` and succeeds otherwise. -/
def c5Env : WorkflowEnv :=
  { authOk := true, discovered := [], credsMap := [], existingUrls := [],
    detailed := []
    registerResp := fun r =>
      if r.account_name = "account-two" then
        Except.error "simulated transport error"
      else
        Except.ok { status := 201,
                    body := Except.ok { errors := [], resourceId := some "rid-1" } }
    deleteResp := fun _ => Except.error "simulated transport error"
    dryRun := false, cleanupEnabled := false, now := 0, offlineDays := 7 }

/-- Claim C5: the register and deregister loops visit every entity of the
batch and collect one outcome per entity — the outcome counts sum to the
batch length, each entity's outcome lands in the success or failure list
according to its own result, and a raised transport exception is caught
and converted into a failure outcome instead of aborting the loop. -/
theorem claim5_apply_independence (env : WorkflowEnv)
    (batch : List EnhancedRegistry) (cspm : List (String × AccountCred))
    (candidates : List Registration) :
    ((registerLoop env batch).1.length + (registerLoop env batch).2.1.length =
        batch.length) ∧
      (∀ r ∈ batch,
        ((register_ecr_registry env r).1.success = true →
          (register_ecr_registry env r).1 ∈ (registerLoop env batch).1) ∧
        ((register_ecr_registry env r).1.success = false →
          (register_ecr_registry env r).1 ∈ (registerLoop env batch).2.1)) ∧
      ((deleteLoop env cspm candidates).1.length +
          (deleteLoop env cspm candidates).2.1.length = candidates.length) ∧
      (∀ r e, env.dryRun = false → env.registerResp r = Except.error e →
        (register_ecr_registry env r).1.success = false ∧
          (register_ecr_registry env r).1.error = some e) ∧
      (∀ reg reason e, env.dryRun = false → env.deleteResp reg = Except.error e →
        (delete_ecr_registry env reg reason).1.success = false ∧
          (delete_ecr_registry env reg reason).1.error = some e) := by
  refine ⟨?_, ?_, ?_, ?_, ?_⟩
  · induction batch with
    | nil => simp [registerLoop]
    | cons a rest ih =>
      simp only [registerLoop]
      cases hs : (register_ecr_registry env a).1.success <;>
        simp [hs, List.length_cons] <;> omega
  · induction batch with
    | nil => intro r hr; simp at hr
    | cons a rest ih =>
      intro r hr
      rcases List.mem_cons.mp hr with rfl | hr
      · cases hs : (register_ecr_registry env r).1.success <;>
          simp [registerLoop, hs]
      · have hacc := ih r hr
        refine ⟨fun h => ?_, fun h => ?_⟩
        · have hm := hacc.1 h
          cases hs : (register_ecr_registry env a).1.success
          · simpa [registerLoop, hs] using hm
          · simp only [registerLoop, hs]
            simp [List.mem_cons]
            exact Or.inr hm
        · have hm := hacc.2 h
          cases hs : (register_ecr_registry env a).1.success
          · simp only [registerLoop, hs]
            simp [List.mem_cons]
            exact Or.inr hm
          · simpa [registerLoop, hs] using hm
  · induction candidates with
    | nil => simp [deleteLoop]
    | cons a rest ih =>
      simp only [deleteLoop]
      cases hs : (delete_ecr_registry env a
          (some (determine_cleanup_reason a cspm env.now env.offlineDays))).1.success <;>
        simp [hs, List.length_cons] <;> omega
  · intro r e hdry herr
    simp [register_ecr_registry, hdry, herr]
  · intro reg reason e hdry herr
    simp [delete_ecr_registry, hdry, herr]

/-- Witness for C5: a batch of three register calls where the second fails
with a simulated transport error; the first and third still produce
success outcomes, the counts sum to three, and the failed call is
converted to a failure outcome carrying the error text. -/
theorem claim5_apply_independence_witness :
    ((registerLoop c5Env
        [c5Registry "account-one", c5Registry "account-two",
         c5Registry "account-three"]).1.length +
      (registerLoop c5Env
        [c5Registry "account-one", c5Registry "account-two",
         c5Registry "account-three"]).2.1.length = 3) ∧
      (register_ecr_registry c5Env (c5Registry "account-one")).1 ∈
        (registerLoop c5Env
          [c5Registry "account-one", c5Registry "account-two",
           c5Registry "account-three"]).1 ∧
      (register_ecr_registry c5Env (c5Registry "account-three")).1 ∈
        (registerLoop c5Env
          [c5Registry "account-one", c5Registry "account-two",
           c5Registry "account-three"]).1 ∧
      (register_ecr_registry c5Env (c5Registry "account-two")).1.success = false ∧
      (register_ecr_registry c5Env (c5Registry "account-two")).1.error =
        some "simulated transport error" := by
  have h := claim5_apply_independence c5Env
    [c5Registry "account-one", c5Registry "account-two",
     c5Registry "account-three"] [] []
  refine ⟨h.1, ?_, ?_, ?_, ?_⟩
  · exact (h.2.1 (c5Registry "account-one") (by decide)).1 (by decide)
  · exact (h.2.1 (c5Registry "account-three") (by decide)).1 (by decide)
  · exact (h.2.2.2.1 (c5Registry "account-two") "simulated transport error"
      rfl rfl).1
  · exact (h.2.2.2.1 (c5Registry "account-two") "simulated transport error"
      rfl rfl).2

/-- An environment running in dry-run mode. -/
def c6Env : WorkflowEnv :=
  { authOk := true, discovered := [], credsMap := [], existingUrls := [],
    detailed := []
    registerResp := fun _ => Except.error "must not be called"
    deleteResp := fun _ => Except.error "must not be called"
    dryRun := true, cleanupEnabled := true, now := 0, offlineDays := 7 }

/-- An enhanced registry fed to the dry-run register call. -/
def c6Enh : EnhancedRegistry :=
  { repositories := [some "api"], account_id := some "666666666666",
    region := some "us-west-2",
    registry_url := some "https://666666666666.dkr.ecr.us-west-2.amazonaws.com",
    iam_role_arn := "arn:aws:iam::666666666666:role/CrowdStrikeCSPMReader",
    external_id := "external-id-6", account_name := "stage-account" }

/-- A registration fed to the dry-run deregister call. -/
def c6Reg : Registration :=
  { id := some "reg-6", url := "https://666666666666.dkr.ecr.us-west-2.amazonaws.com",
    account_id := some "666666666666", state := "offline",
    last_activity := some "2020-01-01T00:00:00", created_at := none,
    updated_at := none }

/-- Counterexample to C6 as stated: in dry-run mode, a deregister call
that is handed a cleanup reason — as the workflow always does — reports
that reason, not the `Dry run mode` marker the claim promises for every
input entity.  (It is still a synthetic success with no mutating call.) -/
theorem claim6_dry_run_counterexample :
    c6Env.dryRun = true ∧
      (delete_ecr_registry c6Env c6Reg
        (some "Registry offline for 30 days (>7 day threshold)")).1.success = true ∧
      (delete_ecr_registry c6Env c6Reg
        (some "Registry offline for 30 days (>7 day threshold)")).2 = [] ∧
      (delete_ecr_registry c6Env c6Reg
          (some "Registry offline for 30 days (>7 day threshold)")).1.cleanup_reason ≠
        "Dry run mode" := by
  refine ⟨rfl, rfl, rfl, by decide⟩

/-- Claim C6 as amended: with dry-run enabled, register and deregister
both return before issuing any call (empty effect trace) with a synthetic
success outcome; register carries the placeholder id `dry-run-id`, and
deregister carries the supplied cleanup reason when one is given (falling
back to `Dry run mode` only when the reason is absent or empty). -/
theorem claim6_dry_run_amended (env : WorkflowEnv) (r : EnhancedRegistry)
    (reg : Registration) (reason : Option String) (hdry : env.dryRun = true) :
    register_ecr_registry env r =
        ({ success := true, registry := r, registry_id := some "dry-run-id",
           error := none }, []) ∧
      delete_ecr_registry env reg reason =
        ({ success := true, registry := reg,
           cleanup_reason := pyOr reason "Dry run mode", error := none }, []) := by
  constructor
  · simp [register_ecr_registry, hdry]
  · simp [delete_ecr_registry, hdry]

/-- Witness for the amended C6, at concrete entities: one call with no
reason (marker `Dry run mode`), written out through `pyOr`. -/
theorem claim6_dry_run_amended_witness :
    register_ecr_registry c6Env c6Enh =
        ({ success := true, registry := c6Enh, registry_id := some "dry-run-id",
           error := none }, []) ∧
      delete_ecr_registry c6Env c6Reg none =
        ({ success := true, registry := c6Reg,
           cleanup_reason := pyOr none "Dry run mode", error := none }, []) :=
  claim6_dry_run_amended c6Env c6Enh c6Reg none rfl

/-- An environment whose register call answers `202 Accepted` with a
well-formed body carrying no error objects, and whose delete call
answers `205`. -/
def c7Env : WorkflowEnv :=
  { authOk := true, discovered := [], credsMap := [], existingUrls := [],
    detailed := []
    registerResp := fun _ =>
      Except.ok { status := 202, body := Except.ok { errors := [], resourceId := none } }
    deleteResp := fun _ =>
      Except.ok { status := 205, body := Except.ok { errors := [], resourceId := none } }
    dryRun := false, cleanupEnabled := true, now := 0, offlineDays := 7 }

/-- Counterexample to C7 as stated: a `202` response — squarely in the
2xx range — makes the register call report failure, because the code
accepts only `[200, 201]` (and `[200, 204]` for delete). -/
theorem claim7_status_counterexample :
    200 ≤ 202 ∧ 202 < 300 ∧
      (register_ecr_registry c7Env c6Enh).1.success = false ∧
      (register_ecr_registry c7Env c6Enh).1.error = some "HTTP 202" := by
  refine ⟨by decide, by decide, rfl, rfl⟩

/-- Claim C7 as amended: outcome success for register holds exactly for
status `200` or `201` (given a deserialisable body), and for deregister
exactly for `200` or `204`; any other status yields a failure outcome
whose message is the server's first error message when the body carries
one, else the generic `HTTP <code>` string. -/
theorem claim7_status_handling (env : WorkflowEnv) (r : EnhancedRegistry)
    (reg : Registration) (reason : Option String) (respR respD : HttpResp)
    (bR : RespBody) (hdry : env.dryRun = false)
    (hR : env.registerResp r = Except.ok respR)
    (hRb : respR.body = Except.ok bR)
    (hD : env.deleteResp reg = Except.ok respD) :
    ((register_ecr_registry env r).1.success = true ↔
        [200, 201].contains respR.status = true) ∧
      ([200, 201].contains respR.status = false →
        (register_ecr_registry env r).1.error =
          some (firstErrorMessage bR respR.status)) ∧
      ((delete_ecr_registry env reg reason).1.success = true ↔
        [200, 204].contains respD.status = true) ∧
      ([200, 204].contains respD.status = false →
        (delete_ecr_registry env reg reason).1.error =
          some (match respD.body with
                | Except.ok b => firstErrorMessage b respD.status
                | Except.error _ => "HTTP " ++ toString respD.status)) := by
  refine ⟨?_, ?_, ?_, ?_⟩
  · cases hc : [200, 201].contains respR.status <;> simp at hc <;>
      simp [register_ecr_registry, hdry, hR, hRb, hc]
  · intro hc
    simp at hc
    simp [register_ecr_registry, hdry, hR, hRb, hc]
  · cases hc : [200, 204].contains respD.status <;> simp at hc <;>
      simp [delete_ecr_registry, hdry, hD, hc]
  · intro hc
    simp at hc
    cases hb : respD.body <;>
      simp [delete_ecr_registry, hdry, hD, hc, hb]

/-- Witness for the amended C7 at the concrete `202`/`205` environment. -/
theorem claim7_status_handling_witness :
    ((register_ecr_registry c7Env c3Enh).1.success = true ↔
        [200, 201].contains 202 = true) ∧
      ((delete_ecr_registry c7Env c6Reg (some "reason")).1.success = true ↔
        [200, 204].contains 205 = true) ∧
      (delete_ecr_registry c7Env c6Reg (some "reason")).1.error =
        some "HTTP 205" := by
  have h := claim7_status_handling c7Env c3Enh c6Reg (some "reason")
    { status := 202, body := Except.ok { errors := [], resourceId := none } }
    { status := 205, body := Except.ok { errors := [], resourceId := none } }
    { errors := [], resourceId := none } rfl rfl rfl rfl
  exact ⟨h.1, h.2.2.1, h.2.2.2 rfl⟩

/-! ## Lemmas about the discovery grouping map -/

/-- Looking up the key just updated by `addToRegistry` finds the merged
entry: the identifying fields are (re)set and the repository is appended
(to the `defaultdict` default when the key is fresh). -/
theorem lookupA_addToRegistry_self (m : List (String × RegistryGroup))
    (k a g u : String) (p : Option String) :
    lookupA (addToRegistry m k a g u p) k =
      some (match lookupA m k with
            | some g0 =>
              { g0 with account_id := some a, region := some g,
                        registry_url := some u,
                        repositories := g0.repositories ++ [p] }
            | none =>
              { repositories := [p], account_id := some a, region := some g,
                registry_url := some u }) := by
  induction m with
  | nil => simp [addToRegistry, lookupA]
  | cons kv rest ih =>
    obtain ⟨k', g'⟩ := kv
    by_cases hk : k' = k
    · subst hk
      simp [addToRegistry, lookupA]
    · simp [addToRegistry, lookupA, hk, ih]

/-- `addToRegistry` leaves every other key's binding unchanged. -/
theorem lookupA_addToRegistry_ne (m : List (String × RegistryGroup))
    (k a g u : String) (p : Option String) (k' : String) (hk : k' ≠ k) :
    lookupA (addToRegistry m k a g u p) k' = lookupA m k' := by
  induction m with
  | nil =>
    have hne : ¬(k = k') := fun h => hk h.symm
    simp [addToRegistry, lookupA, hne]
  | cons kv rest ih =>
    obtain ⟨k'', g''⟩ := kv
    by_cases hk2 : k'' = k
    · subst hk2
      simp [addToRegistry, lookupA, Ne.symm hk]
    · simp [addToRegistry, lookupA, hk2, ih]

/-- A repository already recorded under a key survives any further
grouping steps: later updates only append to `repositories`. -/
theorem foldl_groupStep_preserves (rs : List RawResource)
    (m : List (String × RegistryGroup)) (k : String) (grp : RegistryGroup)
    (p : Option String) (hl : lookupA m k = some grp)
    (hp : p ∈ grp.repositories) :
    ∃ grp', lookupA (rs.foldl groupStep m) k = some grp' ∧
      p ∈ grp'.repositories := by
  induction rs generalizing m grp with
  | nil => exact ⟨grp, hl, hp⟩
  | cons x rest ih =>
    have hstep : ∃ grp'', lookupA (groupStep m x) k = some grp'' ∧
        p ∈ grp''.repositories := by
      obtain ⟨oa, og, orid⟩ := x
      cases oa with
      | none => exact ⟨grp, hl, hp⟩
      | some a =>
        cases og with
        | none => exact ⟨grp, hl, hp⟩
        | some g =>
          by_cases hval : a ≠ "" ∧ g ≠ ""
          · simp only [groupStep, if_pos hval]
            by_cases hkey : a ++ "_" ++ g = k
            · subst hkey
              rw [lookupA_addToRegistry_self, hl]
              exact ⟨_, rfl, List.mem_append_left _ hp⟩
            · rw [lookupA_addToRegistry_ne _ _ _ _ _ _ _ (Ne.symm hkey), hl]
              exact ⟨grp, rfl, hp⟩
          · simp only [groupStep, if_neg hval]
            exact ⟨grp, hl, hp⟩
    obtain ⟨grp'', hl'', hp''⟩ := hstep
    simpa only [List.foldl_cons] using ih (groupStep m x) grp'' hl'' hp''

/-- After folding the grouping step over a list containing a resource with
non-empty `account_id` and `region`, the key for that pair is bound to a
group containing the resource's repository identifier. -/
theorem lookupA_after_fold (rs : List RawResource)
    (m : List (String × RegistryGroup)) (r : RawResource) (a g : String)
    (hmem : r ∈ rs) (ha : r.account_id = some a) (hg : r.region = some g)
    (ha' : a ≠ "") (hg' : g ≠ "") :
    ∃ grp, lookupA (rs.foldl groupStep m) (a ++ "_" ++ g) = some grp ∧
      r.resource_id ∈ grp.repositories := by
  induction rs generalizing m with
  | nil => simp at hmem
  | cons x rest ih =>
    rcases List.mem_cons.mp hmem with rfl | hmem
    · have hstep : ∃ grp0,
          lookupA (groupStep m r) (a ++ "_" ++ g) = some grp0 ∧
            r.resource_id ∈ grp0.repositories := by
        simp only [groupStep, ha, hg, if_pos (And.intro ha' hg')]
        rw [lookupA_addToRegistry_self]
        cases lookupA m (a ++ "_" ++ g) <;> exact ⟨_, rfl, by simp⟩
      obtain ⟨grp0, hl0, hp0⟩ := hstep
      simpa only [List.foldl_cons] using
        foldl_groupStep_preserves rest (groupStep m r) _ grp0 r.resource_id hl0 hp0
    · simpa only [List.foldl_cons] using ih (groupStep m x) hmem

/-- A value reachable by lookup is among the map's values. -/
theorem lookupA_mem_values {β : Type} (m : List (String × β)) (k : String)
    (v : β) (h : lookupA m k = some v) : v ∈ m.map Prod.snd := by
  induction m with
  | nil => simp [lookupA] at h
  | cons kv rest ih =>
    obtain ⟨k', v'⟩ := kv
    rw [lookupA] at h
    by_cases hk : k' = k
    · rw [if_pos hk] at h
      obtain rfl := Option.some.inj h
      simp
    · rw [if_neg hk] at h
      simpa using Or.inr (ih h)

/-- A resource whose `account_id` or `region` is missing or empty does not
change the grouping map. -/
theorem groupStep_invalid (m : List (String × RegistryGroup))
    (r : RawResource) (h : (truthy r.account_id && truthy r.region) = false) :
    groupStep m r = m := by
  obtain ⟨oa, og, orid⟩ := r
  cases oa with
  | none => rfl
  | some a =>
    cases og with
    | none => rfl
    | some g =>
      simp only [truthy, Bool.and_eq_false_iff, decide_eq_false_iff_not,
        not_not] at h
      have : ¬(a ≠ "" ∧ g ≠ "") := by
        rcases h with h | h <;> intro hc <;> [exact hc.1 h; exact hc.2 h]
      simp only [groupStep, if_neg this]

/-- Grouping ignores exactly the resources the truthiness check skips. -/
theorem groupResources_filter (rs : List RawResource) :
    groupResources rs =
      groupResources
        (rs.filter fun r => truthy r.account_id && truthy r.region) := by
  suffices h : ∀ m, rs.foldl groupStep m =
      (rs.filter fun r => truthy r.account_id && truthy r.region).foldl
        groupStep m by
    simp [groupResources, h]
  induction rs with
  | nil => intro m; rfl
  | cons x rest ih =>
    intro m
    cases hx : (truthy x.account_id && truthy x.region) with
    | true => simp [List.filter_cons, hx, ih]
    | false =>
      simp [List.filter_cons, hx, groupStep_invalid m x hx, ih]

/-- First concrete resource of the grouping scenario. -/
def c9Res1 : RawResource :=
  { account_id := some "111122223333", region := some "us-east-1",
    resource_id := some "repo-alpha" }

/-- Second concrete resource: same account and region, different repo. -/
def c9Res2 : RawResource :=
  { account_id := some "111122223333", region := some "us-east-1",
    resource_id := some "repo-beta" }

/-- A resource lacking `account_id`, excluded from grouping. -/
def c9Res3 : RawResource :=
  { account_id := none, region := some "us-east-1",
    resource_id := some "repo-orphan" }

/-- Claim C9: any two resources sharing a non-empty `account_id` and
`region` end up in one common group of `groupResources` whose
`repositories` contains both repository identifiers, and resources whose
`account_id` or `region` is missing or empty are excluded from grouping
(removing them changes nothing). -/
theorem claim9_grouping (rs : List RawResource) :
    (∀ r1 r2 a g, r1 ∈ rs → r2 ∈ rs →
      r1.account_id = some a → r2.account_id = some a →
      r1.region = some g → r2.region = some g → a ≠ "" → g ≠ "" →
      ∃ grp, grp ∈ groupResources rs ∧
        r1.resource_id ∈ grp.repositories ∧
        r2.resource_id ∈ grp.repositories) ∧
      groupResources rs =
        groupResources
          (rs.filter fun r => truthy r.account_id && truthy r.region) := by
  refine ⟨?_, groupResources_filter rs⟩
  intro r1 r2 a g h1 h2 ha1 ha2 hg1 hg2 ha hg
  obtain ⟨grp1, hl1, hp1⟩ := lookupA_after_fold rs [] r1 a g h1 ha1 hg1 ha hg
  obtain ⟨grp2, hl2, hp2⟩ := lookupA_after_fold rs [] r2 a g h2 ha2 hg2 ha hg
  rw [hl1] at hl2
  obtain rfl := Option.some.inj hl2
  exact ⟨grp1, lookupA_mem_values _ _ _ hl1, hp1, hp2⟩

/-- Witness for C9: `repo-alpha` and `repo-beta` share one group; the
orphan resource (no account id) changes nothing. -/
theorem claim9_grouping_witness :
    (∃ grp, grp ∈ groupResources [c9Res1, c9Res2, c9Res3] ∧
        c9Res1.resource_id ∈ grp.repositories ∧
        c9Res2.resource_id ∈ grp.repositories) ∧
      groupResources [c9Res1, c9Res2, c9Res3] =
        groupResources
          ([c9Res1, c9Res2, c9Res3].filter fun r =>
            truthy r.account_id && truthy r.region) :=
  ⟨(claim9_grouping [c9Res1, c9Res2, c9Res3]).1 c9Res1 c9Res2 "111122223333"
      "us-east-1" (by decide) (by decide) rfl rfl rfl rfl (by decide) (by decide),
   (claim9_grouping [c9Res1, c9Res2, c9Res3]).2⟩

/-- The discovered group of the C4 scenario. -/
def c4Group : RegistryGroup :=
  { repositories := [some "web"], account_id := some "444455556666",
    region := some "us-east-1",
    registry_url := some "https://444455556666.dkr.ecr.us-east-1.amazonaws.com" }

/-- The credential of the C4 scenario's account. -/
def c4Cred : AccountCred :=
  { iam_role_arn := "arn:aws:iam::444455556666:role/CrowdStrikeCSPMReader",
    external_id := "external-id-4", account_name := "net-account" }

/-- A stale offline registration eligible for deletion under the rules. -/
def c4Reg : Registration :=
  { id := some "reg-4", url := "https://444455556666.dkr.ecr.us-east-1.amazonaws.com",
    account_id := some "444455556666", state := "offline",
    last_activity := some "2020-01-01T00:00:00", created_at := none,
    updated_at := none }

/-- A run where everything succeeds, cleanup is enabled, a stale offline
registration exists, but the lone discovered registry is already
registered, so the registration diff is empty. -/
def c4Env : WorkflowEnv :=
  { authOk := true, discovered := [c4Group],
    credsMap := [("444455556666", c4Cred)],
    existingUrls := ["https://444455556666.dkr.ecr.us-east-1.amazonaws.com"],
    detailed := [c4Reg]
    registerResp := fun _ =>
      Except.ok { status := 200,
                  body := Except.ok { errors := [], resourceId := some "rid-4" } }
    deleteResp := fun _ =>
      Except.ok { status := 200,
                  body := Except.ok { errors := [], resourceId := none } }
    dryRun := false, cleanupEnabled := true,
    now := daysFromCivil 2026 1 1 * 86400, offlineDays := 7 }

/-- The same run with nothing yet registered, so the diff is non-empty. -/
def c4EnvB : WorkflowEnv :=
  { c4Env with existingUrls := [] }

/-- Counterexample to C4 as stated: authentication succeeds, discovery and
enrichment are non-empty, cleanup is enabled, and a cleanup candidate
exists, yet — because the registration diff is empty — the workflow
returns early: it issues no call at all (in particular it never fetches
the detailed registrations) and computes no deletion set. -/
theorem claim4_cleanup_skipped_counterexample :
    c4Env.authOk = true ∧
      c4Env.discovered ≠ [] ∧
      enhance_registries_with_credentials c4Env.discovered c4Env.credsMap ≠ [] ∧
      c4Env.cleanupEnabled = true ∧
      identify_registrations_for_cleanup c4Env.detailed c4Env.credsMap c4Env.now
          c4Env.offlineDays ≠ [] ∧
      (run_onboarding_workflow c4Env).2 = [] ∧
      Effect.fetchDetailed ∉ (run_onboarding_workflow c4Env).2 ∧
      (run_onboarding_workflow c4Env).1.cleanup_candidates = 0 ∧
      (run_onboarding_workflow c4Env).1.deleted_registrations = 0 := by
  refine ⟨rfl, by decide, by decide, rfl, by decide, rfl, by decide, rfl, rfl⟩

/-- Claim C4 as amended: when authentication succeeds, discovery and
enrichment are non-empty, cleanup is enabled **and the registration diff
is non-empty**, the workflow fetches the detailed registrations and
applies the §4.5 classification to compute the deletion set; with an
empty diff the workflow returns before the cleanup stage. -/
theorem claim4_cleanup_runs_amended (env : WorkflowEnv)
    (hauth : env.authOk = true)
    (hdisc : env.discovered.isEmpty = false)
    (henh : (enhance_registries_with_credentials env.discovered
      env.credsMap).isEmpty = false)
    (hreg : (to_register
      (enhance_registries_with_credentials env.discovered env.credsMap)
      env.existingUrls).isEmpty = false)
    (hclean : env.cleanupEnabled = true) :
    Effect.fetchDetailed ∈ (run_onboarding_workflow env).2 ∧
      (run_onboarding_workflow env).1.cleanup_candidates =
        (identify_registrations_for_cleanup env.detailed env.credsMap env.now
          env.offlineDays).length := by
  cases hd : env.detailed.isEmpty with
  | true =>
    have hnil : env.detailed = [] := List.isEmpty_iff.mp hd
    simp [run_onboarding_workflow, hauth, hdisc, henh, hreg, hclean, hd,
      hnil, identify_registrations_for_cleanup, initResult]
  | false =>
    simp [run_onboarding_workflow, hauth, hdisc, henh, hreg, hclean, hd]

/-- Witness for the amended C4: same scenario as the counterexample but
with an empty existing-registration set, so the diff is non-empty and the
cleanup stage runs, finding the one stale candidate. -/
theorem claim4_cleanup_runs_amended_witness :
    Effect.fetchDetailed ∈ (run_onboarding_workflow c4EnvB).2 ∧
      (run_onboarding_workflow c4EnvB).1.cleanup_candidates =
        (identify_registrations_for_cleanup c4EnvB.detailed c4EnvB.credsMap
          c4EnvB.now c4EnvB.offlineDays).length :=
  claim4_cleanup_runs_amended c4EnvB rfl rfl rfl rfl rfl

end Ecr
